import Mathlib

/-!
Verification development for the notebooklm-mcp session/browser lifecycle
manager.  Pure code (src/config.ts, the ask_question tool handler in
src/tools/index.ts, src/errors.ts) is embedded directly; components whose
implementation is consumed only through the specification (SessionManager,
Session, SharedContextManager, ProfileAllocator) are modelled from the
specification text, and each such definition says so in its doc comment.
-/

namespace NLM

/-! ## JavaScript string primitives

Shallow embeddings of the JavaScript string operations used by the source
(`toLowerCase`, `trimEnd`, `trim`, `includes`), modelled on `String.data`
so that proofs can work with plain lists of characters.  Only ASCII
behaviour matters for the strings the source compares against. -/

/-- ASCII lower-casing of one character, as `String.prototype.toLowerCase`
behaves on ASCII input. -/
def jsLowerChar (c : Char) : Char :=
  if 'A' ≤ c ∧ c ≤ 'Z' then Char.ofNat (c.toNat + 32) else c

/-- Embedding of `value.toLowerCase()` (ASCII fragment). -/
def jsToLower (s : String) : String :=
  ⟨s.data.map jsLowerChar⟩

/-- The JavaScript whitespace class used by `trim`/`trimEnd`/`parseInt`
(space, tab, line terminators, vertical tab, form feed). -/
def jsWhitespace (c : Char) : Bool :=
  c = ' ' || c = '\t' || c = '\n' || c = '\r' || c = '\x0b' || c = '\x0c'

/-- Embedding of `value.trimEnd()`: drop trailing whitespace. -/
def jsTrimEnd (s : String) : String :=
  ⟨(s.data.reverse.dropWhile jsWhitespace).reverse⟩

/-- Embedding of `value.trim()`: drop leading and trailing whitespace. -/
def jsTrim (s : String) : String :=
  ⟨((s.data.dropWhile jsWhitespace).reverse.dropWhile jsWhitespace).reverse⟩

/-- Embedding of `haystack.includes(needle)` as a proposition:
the characters of the needle occur contiguously inside the haystack. -/
def jsIncludes (haystack needle : String) : Prop :=
  needle.data <:+: haystack.data

instance (h n : String) : Decidable (jsIncludes h n) := by
  unfold jsIncludes; infer_instance

/-! ## Configuration (src/config.ts)

The embedding is parametric in the `env-paths` result (an external
library call) and in the parsed user-configuration JSON (read from disk
by `loadUserConfig`); both are inputs of `buildConfig` here. -/

/-- The `viewport` sub-object of the configuration. -/
structure Viewport where
  width : Nat
  height : Nat
deriving Repr, DecidableEq

/-- Result of the external `envPaths("notebooklm-mcp")` call. -/
structure Paths where
  config : String
  data : String
deriving Repr, DecidableEq

/-- The `Config` interface of src/config.ts. -/
structure Config where
  notebookUrl : String
  headless : Bool
  browserTimeout : Int
  viewport : Viewport
  maxSessions : Int
  sessionTimeout : Int
  autoLoginEnabled : Bool
  loginEmail : String
  loginPassword : String
  autoLoginTimeoutMs : Int
  stealthEnabled : Bool
  stealthRandomDelays : Bool
  stealthHumanTyping : Bool
  stealthMouseMovements : Bool
  typingWpmMin : Int
  typingWpmMax : Int
  minDelayMs : Int
  maxDelayMs : Int
  configDir : String
  dataDir : String
  browserStateDir : String
  chromeProfileDir : String
  chromeInstancesDir : String
  notebookDescription : String
  notebookTopics : List String
  notebookContentTypes : List String
  notebookUseCases : List String
  profileStrategy : String
  cloneProfileOnIsolated : Bool
  cleanupInstancesOnStartup : Bool
  cleanupInstancesOnShutdown : Bool
  instanceProfileTtlHours : Int
  instanceProfileMaxCount : Int
deriving Repr, DecidableEq

/-- The `DEFAULTS` constant of src/config.ts, parametric in the
`env-paths` result it reads its directory fields from. -/
def DEFAULTS (paths : Paths) : Config where
  notebookUrl := ""
  headless := true
  browserTimeout := 30000
  viewport := ⟨1920, 1080⟩
  maxSessions := 10
  sessionTimeout := 900
  autoLoginEnabled := false
  loginEmail := ""
  loginPassword := ""
  autoLoginTimeoutMs := 120000
  stealthEnabled := true
  stealthRandomDelays := true
  stealthHumanTyping := true
  stealthMouseMovements := true
  typingWpmMin := 160
  typingWpmMax := 240
  minDelayMs := 100
  maxDelayMs := 400
  configDir := paths.config
  dataDir := paths.data
  browserStateDir := paths.data ++ "/browser_state"
  chromeProfileDir := paths.data ++ "/chrome_profile"
  chromeInstancesDir := paths.data ++ "/chrome_profile_instances"
  notebookDescription := "General knowledge base"
  notebookTopics := ["General topics"]
  notebookContentTypes := ["documentation", "examples"]
  notebookUseCases := ["General research"]
  profileStrategy := "auto"
  cloneProfileOnIsolated := false
  cleanupInstancesOnStartup := true
  cleanupInstancesOnShutdown := true
  instanceProfileTtlHours := 72
  instanceProfileMaxCount := 20

/-- The partial configuration loaded by `loadUserConfig` from
config.json: every key may be absent. -/
structure UserConfig where
  notebookUrl : Option String := none
  headless : Option Bool := none
  browserTimeout : Option Int := none
  viewport : Option Viewport := none
  maxSessions : Option Int := none
  sessionTimeout : Option Int := none
  autoLoginEnabled : Option Bool := none
  loginEmail : Option String := none
  loginPassword : Option String := none
  autoLoginTimeoutMs : Option Int := none
  stealthEnabled : Option Bool := none
  stealthRandomDelays : Option Bool := none
  stealthHumanTyping : Option Bool := none
  stealthMouseMovements : Option Bool := none
  typingWpmMin : Option Int := none
  typingWpmMax : Option Int := none
  minDelayMs : Option Int := none
  maxDelayMs : Option Int := none
  configDir : Option String := none
  dataDir : Option String := none
  browserStateDir : Option String := none
  chromeProfileDir : Option String := none
  chromeInstancesDir : Option String := none
  notebookDescription : Option String := none
  notebookTopics : Option (List String) := none
  notebookContentTypes : Option (List String) := none
  notebookUseCases : Option (List String) := none
  profileStrategy : Option String := none
  cloneProfileOnIsolated : Option Bool := none
  cleanupInstancesOnStartup : Option Bool := none
  cleanupInstancesOnShutdown : Option Bool := none
  instanceProfileTtlHours : Option Int := none
  instanceProfileMaxCount : Option Int := none
deriving Repr, DecidableEq

/-- The empty user configuration: no config.json file present. -/
def emptyUserConfig : UserConfig := {}

/-- The JavaScript spread merge in `buildConfig`:
a present user-config key overrides the default for that key. -/
def mergeConfig (base : Config) (u : UserConfig) : Config where
  notebookUrl := u.notebookUrl.getD base.notebookUrl
  headless := u.headless.getD base.headless
  browserTimeout := u.browserTimeout.getD base.browserTimeout
  viewport := u.viewport.getD base.viewport
  maxSessions := u.maxSessions.getD base.maxSessions
  sessionTimeout := u.sessionTimeout.getD base.sessionTimeout
  autoLoginEnabled := u.autoLoginEnabled.getD base.autoLoginEnabled
  loginEmail := u.loginEmail.getD base.loginEmail
  loginPassword := u.loginPassword.getD base.loginPassword
  autoLoginTimeoutMs := u.autoLoginTimeoutMs.getD base.autoLoginTimeoutMs
  stealthEnabled := u.stealthEnabled.getD base.stealthEnabled
  stealthRandomDelays := u.stealthRandomDelays.getD base.stealthRandomDelays
  stealthHumanTyping := u.stealthHumanTyping.getD base.stealthHumanTyping
  stealthMouseMovements := u.stealthMouseMovements.getD base.stealthMouseMovements
  typingWpmMin := u.typingWpmMin.getD base.typingWpmMin
  typingWpmMax := u.typingWpmMax.getD base.typingWpmMax
  minDelayMs := u.minDelayMs.getD base.minDelayMs
  maxDelayMs := u.maxDelayMs.getD base.maxDelayMs
  configDir := u.configDir.getD base.configDir
  dataDir := u.dataDir.getD base.dataDir
  browserStateDir := u.browserStateDir.getD base.browserStateDir
  chromeProfileDir := u.chromeProfileDir.getD base.chromeProfileDir
  chromeInstancesDir := u.chromeInstancesDir.getD base.chromeInstancesDir
  notebookDescription := u.notebookDescription.getD base.notebookDescription
  notebookTopics := u.notebookTopics.getD base.notebookTopics
  notebookContentTypes := u.notebookContentTypes.getD base.notebookContentTypes
  notebookUseCases := u.notebookUseCases.getD base.notebookUseCases
  profileStrategy := u.profileStrategy.getD base.profileStrategy
  cloneProfileOnIsolated := u.cloneProfileOnIsolated.getD base.cloneProfileOnIsolated
  cleanupInstancesOnStartup := u.cleanupInstancesOnStartup.getD base.cleanupInstancesOnStartup
  cleanupInstancesOnShutdown := u.cleanupInstancesOnShutdown.getD base.cleanupInstancesOnShutdown
  instanceProfileTtlHours := u.instanceProfileTtlHours.getD base.instanceProfileTtlHours
  instanceProfileMaxCount := u.instanceProfileMaxCount.getD base.instanceProfileMaxCount

/-- The environment variables read by `applyEnvOverrides`
(`process.env.X : string | undefined`). -/
structure Env where
  NOTEBOOK_URL : Option String := none
  HEADLESS : Option String := none
  BROWSER_TIMEOUT : Option String := none
  MAX_SESSIONS : Option String := none
  SESSION_TIMEOUT : Option String := none
  AUTO_LOGIN_ENABLED : Option String := none
  LOGIN_EMAIL : Option String := none
  LOGIN_PASSWORD : Option String := none
  AUTO_LOGIN_TIMEOUT_MS : Option String := none
  STEALTH_ENABLED : Option String := none
  STEALTH_RANDOM_DELAYS : Option String := none
  STEALTH_HUMAN_TYPING : Option String := none
  STEALTH_MOUSE_MOVEMENTS : Option String := none
  TYPING_WPM_MIN : Option String := none
  TYPING_WPM_MAX : Option String := none
  MIN_DELAY_MS : Option String := none
  MAX_DELAY_MS : Option String := none
  NOTEBOOK_DESCRIPTION : Option String := none
  NOTEBOOK_TOPICS : Option String := none
  NOTEBOOK_CONTENT_TYPES : Option String := none
  NOTEBOOK_USE_CASES : Option String := none
  NOTEBOOK_PROFILE_STRATEGY : Option String := none
  NOTEBOOK_CLONE_PROFILE : Option String := none
  NOTEBOOK_CLEANUP_ON_STARTUP : Option String := none
  NOTEBOOK_CLEANUP_ON_SHUTDOWN : Option String := none
  NOTEBOOK_INSTANCE_TTL_HOURS : Option String := none
  NOTEBOOK_INSTANCE_MAX_COUNT : Option String := none
deriving Repr, DecidableEq

/-- The empty environment: no overriding variables set. -/
def emptyEnv : Env := {}

/-- The `parseBoolean` helper of src/config.ts. -/
def parseBoolean (value : Option String) (defaultValue : Bool) : Bool :=
  match value with
  | none => defaultValue
  | some v =>
    let lower := jsToLower v
    if lower = "true" ∨ lower = "1" then true
    else if lower = "false" ∨ lower = "0" then false
    else defaultValue

/-- JavaScript `Number.parseInt(value, 10)`: skip leading whitespace,
read an optional sign and then a maximal run of decimal digits; `NaN`
(here `none`) when that run is empty. -/
def parseIntJS (s : String) : Option Int :=
  let l := s.data.dropWhile jsWhitespace
  let signAndRest : Bool × List Char :=
    match l with
    | '-' :: rest => (true, rest)
    | '+' :: rest => (false, rest)
    | _ => (false, l)
  let digits := signAndRest.2.takeWhile Char.isDigit
  if digits.isEmpty then none
  else
    let n : Nat := digits.foldl (fun a c => a * 10 + (c.toNat - 48)) 0
    some (if signAndRest.1 then -(n : Int) else (n : Int))

/-- The `parseInteger` helper of src/config.ts. -/
def parseInteger (value : Option String) (defaultValue : Int) : Int :=
  match value with
  | none => defaultValue
  | some v => (parseIntJS v).getD defaultValue

/-- The `parseArray` helper of src/config.ts: split on commas, trim,
drop empties; a falsy (absent or empty) input keeps the default. -/
def parseArray (value : Option String) (defaultValue : List String) : List String :=
  match value with
  | none => defaultValue
  | some v =>
    if v = "" then defaultValue
    else (((v.splitOn (",")).map jsTrim).filter (fun s => s.length > 0))

/-- JavaScript `process.env.X || config.x`: an absent or empty string
falls back to the existing value. -/
def envOrElse (value : Option String) (defaultValue : String) : String :=
  match value with
  | none => defaultValue
  | some v => if v = "" then defaultValue else v

/-- The `applyEnvOverrides` function of src/config.ts. -/
def applyEnvOverrides (env : Env) (config : Config) : Config :=
  { config with
    notebookUrl := envOrElse env.NOTEBOOK_URL config.notebookUrl
    headless := parseBoolean env.HEADLESS config.headless
    browserTimeout := parseInteger env.BROWSER_TIMEOUT config.browserTimeout
    maxSessions := parseInteger env.MAX_SESSIONS config.maxSessions
    sessionTimeout := parseInteger env.SESSION_TIMEOUT config.sessionTimeout
    autoLoginEnabled := parseBoolean env.AUTO_LOGIN_ENABLED config.autoLoginEnabled
    loginEmail := envOrElse env.LOGIN_EMAIL config.loginEmail
    loginPassword := envOrElse env.LOGIN_PASSWORD config.loginPassword
    autoLoginTimeoutMs := parseInteger env.AUTO_LOGIN_TIMEOUT_MS config.autoLoginTimeoutMs
    stealthEnabled := parseBoolean env.STEALTH_ENABLED config.stealthEnabled
    stealthRandomDelays := parseBoolean env.STEALTH_RANDOM_DELAYS config.stealthRandomDelays
    stealthHumanTyping := parseBoolean env.STEALTH_HUMAN_TYPING config.stealthHumanTyping
    stealthMouseMovements := parseBoolean env.STEALTH_MOUSE_MOVEMENTS config.stealthMouseMovements
    typingWpmMin := parseInteger env.TYPING_WPM_MIN config.typingWpmMin
    typingWpmMax := parseInteger env.TYPING_WPM_MAX config.typingWpmMax
    minDelayMs := parseInteger env.MIN_DELAY_MS config.minDelayMs
    maxDelayMs := parseInteger env.MAX_DELAY_MS config.maxDelayMs
    notebookDescription := envOrElse env.NOTEBOOK_DESCRIPTION config.notebookDescription
    notebookTopics := parseArray env.NOTEBOOK_TOPICS config.notebookTopics
    notebookContentTypes := parseArray env.NOTEBOOK_CONTENT_TYPES config.notebookContentTypes
    notebookUseCases := parseArray env.NOTEBOOK_USE_CASES config.notebookUseCases
    profileStrategy := envOrElse env.NOTEBOOK_PROFILE_STRATEGY config.profileStrategy
    cloneProfileOnIsolated := parseBoolean env.NOTEBOOK_CLONE_PROFILE config.cloneProfileOnIsolated
    cleanupInstancesOnStartup :=
      parseBoolean env.NOTEBOOK_CLEANUP_ON_STARTUP config.cleanupInstancesOnStartup
    cleanupInstancesOnShutdown :=
      parseBoolean env.NOTEBOOK_CLEANUP_ON_SHUTDOWN config.cleanupInstancesOnShutdown
    instanceProfileTtlHours :=
      parseInteger env.NOTEBOOK_INSTANCE_TTL_HOURS config.instanceProfileTtlHours
    instanceProfileMaxCount :=
      parseInteger env.NOTEBOOK_INSTANCE_MAX_COUNT config.instanceProfileMaxCount }

/-- The `buildConfig` function of src/config.ts: defaults, then the
user-config JSON spread over them, then environment overrides. -/
def buildConfig (paths : Paths) (userConfig : UserConfig) (env : Env) : Config :=
  applyEnvOverrides env (mergeConfig (DEFAULTS paths) userConfig)

/-! ## Errors and the ask_question tool handler
(src/errors.ts, src/tools/index.ts) -/

/-- A JavaScript `Error` value as the handler observes it: its `name`
(set by the constructor, used for `instanceof`-style discrimination)
and its `message`. -/
structure JsError where
  name : String
  message : String
deriving Repr, DecidableEq

/-- The default message the `RateLimitError` constructor of
src/errors.ts uses when none is supplied. -/
def rateLimitDefaultMessage : String :=
  "NotebookLM rate limit reached (50 queries/day for free accounts)"

/-- The `RateLimitError` constructor of src/errors.ts: it sets the
field `name` of the error to "RateLimitError". -/
def RateLimitError (message : String) : JsError :=
  ⟨"RateLimitError", message⟩

/-- The `FOLLOW_UP_REMINDER` constant of src/tools/index.ts. -/
def FOLLOW_UP_REMINDER : String :=
  "\n\nEXTREMELY IMPORTANT: Is that ALL you need to know? You can always ask another question using the same session ID! Think about it carefully: before you reply to the user, review their original request and this answer. If anything is still unclear or missing, ask me another question first."

/-- The rate-limit remediation text built by `handleAskQuestion`,
up to the interpolated original error message. -/
def rateLimitGuidance : String :=
  "NotebookLM rate limit reached (50 queries/day for free accounts).\n\nYou can:\n1. Use the \x27re_auth\x27 tool to login with a different Google account\n2. Wait until tomorrow for the quota to reset\n3. Upgrade to Google AI Pro/Ultra for 5x higher limits\n\nOriginal error: "

/-- The `ToolResult` shape `handleAskQuestion` returns, restricted to
the fields the claims are about. -/
inductive ToolOutcome where
  | success (answer : String)
  | failure (error : String)
deriving Repr, DecidableEq

/-- The `handleAskQuestion` handler of src/tools/index.ts, as a function
of the outcome of `session.ask`: on success the answer is
`rawAnswer.trimEnd()` followed by `FOLLOW_UP_REMINDER`; on error, a
`RateLimitError` (or any message containing "rate limit" once
lower-cased) is surfaced with the remediation guidance followed by the
original message, and every other error with its message alone. -/
def handleAskQuestion (askResult : Except JsError String) : ToolOutcome :=
  match askResult with
  | .ok rawAnswer => .success (jsTrimEnd rawAnswer ++ FOLLOW_UP_REMINDER)
  | .error e =>
    if e.name = "RateLimitError" ∨ jsIncludes (jsToLower e.message) "rate limit" then
      .failure (rateLimitGuidance ++ e.message)
    else
      .failure e.message

/-- Modelled from the spec: the response `Session.ask` reads back from
the page (the `Session` implementation is not part of the provided
sources).  The target application either yields an answer, signals its
daily-quota condition (detected from response content/selectors), or the
page fails to navigate or interact. -/
inductive PageSignal where
  | answer (text : String)
  | rateLimitSignal
  | navigationError (msg : String)
deriving Repr, DecidableEq

/-- Modelled from the spec: the failure result of `Session.ask` given
what the page signalled — `RateLimited` (the `RateLimitError` of
src/errors.ts) exactly on the daily-quota signal, a navigation failure
otherwise, and the answer on success (spec §4.4 contract of `ask`). -/
def sessionAskResult (response : PageSignal) : Except JsError String :=
  match response with
  | .answer t => .ok t
  | .rateLimitSignal => .error (RateLimitError rateLimitDefaultMessage)
  | .navigationError m => .error ⟨"NavigationFailed", m⟩

/-! ## SharedContextManager (modelled from the spec, §4.3)

The shared-context pool implementation is not among the provided
sources; the pool, its keys and its four mutating operations are
modelled from the specification.  The pool is a list of contexts so
that the one-live-context-per-key property is a real invariant rather
than a consequence of a map-shaped state. -/

/-- Key of a shared context: `(visible, profilePath)` (spec §3). -/
structure CtxKey where
  visible : Bool
  profilePath : String
deriving Repr, DecidableEq

/-- Health of a shared context (spec §3). -/
inductive Health where
  | healthy
  | closed
deriving Repr, DecidableEq

/-- Modelled from the spec: one pooled browser context with its key,
health and reference count. -/
structure SharedContext where
  key : CtxKey
  health : Health
  refcount : Nat
deriving Repr, DecidableEq

/-- The pool owned by `SharedContextManager`. -/
abbrev ContextPool := List SharedContext

/-- Whether the pool holds a healthy context under `key`. -/
def hasHealthy (pool : ContextPool) (key : CtxKey) : Bool :=
  pool.any (fun c => c.key = key ∧ c.health = Health.healthy)

/-- Modelled from the spec: `acquire(visible, profilePath)` — reuse the
healthy context for the key, bumping its refcount; otherwise discard
any dead handle under that key and create a fresh healthy context
(spec §4.3 key behaviors). -/
def acquireStep (pool : ContextPool) (key : CtxKey) : ContextPool :=
  if hasHealthy pool key then
    pool.map (fun c =>
      if c.key = key ∧ c.health = Health.healthy then
        { c with refcount := c.refcount + 1 }
      else c)
  else
    pool.filter (fun c => ¬ c.key = key) ++ [⟨key, Health.healthy, 1⟩]

/-- Modelled from the spec: `release(visible, profilePath)` decrements
the refcount of the context under the key. -/
def releaseStep (pool : ContextPool) (key : CtxKey) : ContextPool :=
  pool.map (fun c => if c.key = key then { c with refcount := c.refcount - 1 } else c)

/-- Modelled from the spec: a page operation raised a closed condition,
flipping the context under the key to `Closed` (spec §4.3 health
detection). -/
def healthFlipStep (pool : ContextPool) (key : CtxKey) : ContextPool :=
  pool.map (fun c => if c.key = key then { c with health := Health.closed } else c)

/-- Modelled from the spec: the visibility-mode switch — tear down the
context cached under the old visibility for this profile, then create
(or reuse) one under the new visibility (spec §4.3). -/
def rebindStep (pool : ContextPool) (oldVisible newVisible : Bool)
    (profilePath : String) : ContextPool :=
  acquireStep (pool.filter (fun c => ¬ c.key = CtxKey.mk oldVisible profilePath))
    (CtxKey.mk newVisible profilePath)

/-- Modelled from the spec: teardown of a context whose refcount reached
zero (spec §4.3 reference counting). -/
def teardownStep (pool : ContextPool) (key : CtxKey) : ContextPool :=
  pool.filter (fun c => ¬ (c.key = key ∧ c.refcount = 0))

/-- The mutating operations of `SharedContextManager`. -/
inductive PoolOp where
  | acquire (key : CtxKey)
  | release (key : CtxKey)
  | healthFlip (key : CtxKey)
  | rebind (oldVisible newVisible : Bool) (profilePath : String)
  | teardown (key : CtxKey)
deriving Repr, DecidableEq

/-- One step of the pool state machine. -/
def poolStep (pool : ContextPool) : PoolOp → ContextPool
  | .acquire key => acquireStep pool key
  | .release key => releaseStep pool key
  | .healthFlip key => healthFlipStep pool key
  | .rebind oldV newV p => rebindStep pool oldV newV p
  | .teardown key => teardownStep pool key

/-- Run a sequence of pool operations from the empty pool (pool state
at process start). -/
def runPool (ops : List PoolOp) : ContextPool :=
  ops.foldl poolStep []

/-- Number of live (healthy) contexts under one key. -/
def countHealthy (pool : ContextPool) (key : CtxKey) : Nat :=
  pool.countP (fun c => c.key = key ∧ c.health = Health.healthy)

/-- The pool invariant of spec §3: at most one live context per key. -/
def PoolInv (pool : ContextPool) : Prop :=
  ∀ key, countHealthy pool key ≤ 1

/-! ## SessionManager and Session registry (modelled from the spec,
§3, §4.4, §4.5)

The `SessionManager` and `Session` implementations are not among the
provided sources; the registry, its operations and the session fields
are modelled from the specification. -/

/-- Session lifecycle state (spec §3 data model). -/
inductive SessState where
  | active
  | closedS
deriving Repr, DecidableEq

/-- Modelled from the spec: one logical session with the fields of the
spec data model, plus the visibility of the context it is bound to
(spec §4.3 visibility switch, changelog 1.1.0). Ids are drawn from a
counter, standing in for freshly generated opaque unique ids. -/
structure Sess where
  sid : Nat
  notebookUrl : String
  createdAt : Nat
  lastActivityAt : Nat
  messageCount : Nat
  boundVisible : Bool
  state : SessState
deriving Repr, DecidableEq

/-- Configuration slice consumed by the session manager. -/
structure SMConfig where
  maxSessions : Nat
  timeout : Nat
  defaultVisible : Bool
deriving Repr, DecidableEq

/-- Modelled from the spec: the registry owned by `SessionManager`
plus the fresh-id counter. -/
structure SMState where
  registry : List Sess
  nextId : Nat
deriving Repr, DecidableEq

/-- Modelled from the spec: the access-triggered sweep (spec §4.5) —
drop every session whose idle time exceeds the configured timeout. -/
def sweepExpired (cfg : SMConfig) (now : Nat) (reg : List Sess) : List Sess :=
  reg.filter (fun s => now - s.lastActivityAt ≤ cfg.timeout)

/-- Registry lookup by session id. -/
def findSession (reg : List Sess) (i : Nat) : Option Sess :=
  reg.find? (fun s => s.sid = i)

/-- Modelled from the spec: the effect of one `ask` on the own fields
of the session — activity refreshed, message counter incremented
(spec §3, §8). -/
def sessionAfterAsk (s : Sess) (now : Nat) : Sess :=
  { s with lastActivityAt := now, messageCount := s.messageCount + 1 }

/-- Modelled from the spec: the key of the shared context an `ask` on
this session leases its page from (spec §2 control flow, §4.3). -/
def askContextKey (s : Sess) (profilePath : String) : CtxKey :=
  ⟨s.boundVisible, profilePath⟩

/-- Modelled from the spec: `getOrCreateSession(id?, targetUrl,
visibilityOverride?)` (spec §4.5).  Sweep first; a matching live
session is returned as-is unless the visibility override differs from
its binding, in which case it is rebound in place (same id, message
counter reset — spec §4.3, changelog 1.1.0); otherwise, evicting the
least-recently-active session when at capacity, a fresh session with a
fresh id is created — creation never fails. -/
def getOrCreateSession (cfg : SMConfig) (st : SMState) (idOpt : Option Nat)
    (url : String) (visOverride : Option Bool) (now : Nat) : Sess × SMState :=
  let reg := sweepExpired cfg now st.registry
  match idOpt.bind (findSession reg) with
  | some s =>
    let required := visOverride.getD s.boundVisible
    if required = s.boundVisible then
      (s, ⟨reg, st.nextId⟩)
    else
      let s' := { s with boundVisible := required, messageCount := 0 }
      (s', ⟨reg.map (fun t => if t.sid = s.sid then s' else t), st.nextId⟩)
  | none =>
    let reg2 :=
      if cfg.maxSessions ≤ reg.length then
        match reg.argmin Sess.lastActivityAt with
        | some victim => reg.erase victim
        | none => reg
      else reg
    let fresh : Sess :=
      ⟨st.nextId, url, now, now, 0, visOverride.getD cfg.defaultVisible, .active⟩
    (fresh, ⟨reg2 ++ [fresh], st.nextId + 1⟩)

/-- Modelled from the spec: `getSession(id)` — lookup that never
resumes an expired session (spec §4.5 guarantee): an entry whose idle
time has elapsed yields `NotFound` (`none`). -/
def getSession (cfg : SMConfig) (st : SMState) (i : Nat) (now : Nat) : Option Sess :=
  (findSession st.registry i).bind (fun s =>
    if cfg.timeout < now - s.lastActivityAt then none else some s)

/-- The operations driving the session registry. -/
inductive SMOp where
  | getOrCreate (idOpt : Option Nat) (url : String) (visOverride : Option Bool) (now : Nat)
  | ask (i : Nat) (now : Nat)
  | reset (i : Nat)
  | close (i : Nat)
  | closeAll
deriving Repr, DecidableEq

/-- One step of the session-manager state machine.  `close` releases
the lease of the session and removes it from the registry (a `Closed`
session never stays in the registry — spec §3, §4.4); `reset` zeroes
the message counter keeping the same id (spec §4.4). -/
def smStep (cfg : SMConfig) (st : SMState) : SMOp → SMState
  | .getOrCreate idOpt url vis now => (getOrCreateSession cfg st idOpt url vis now).2
  | .ask i now =>
    ⟨st.registry.map (fun s => if s.sid = i then sessionAfterAsk s now else s), st.nextId⟩
  | .reset i =>
    ⟨st.registry.map (fun s => if s.sid = i then { s with messageCount := 0 } else s), st.nextId⟩
  | .close i => ⟨st.registry.filter (fun s => ¬ s.sid = i), st.nextId⟩
  | .closeAll => ⟨[], st.nextId⟩

/-- Run a sequence of session-manager operations from the empty
registry (manager state at process start). -/
def runSM (cfg : SMConfig) (ops : List SMOp) : SMState :=
  ops.foldl (smStep cfg) ⟨[], 0⟩

/-! ## Session.ask crash recovery (modelled from the spec, §4.4, §7)

The `Session` implementation is not among the provided sources; the
recreate-and-retry policy is modelled from the specification and the
troubleshooting document ("The server auto-recovers (recreates context
and page)"). -/

/-- Outcome of one page-automation attempt inside `ask`. -/
inductive AttemptResult where
  | answer (text : String)
  | closedError (msg : String)
  | otherError (msg : String)
deriving Repr, DecidableEq

/-- What the caller of `ask` receives. -/
inductive AskOutcome where
  | answered (text : String)
  | navigationFailed (msg : String)
deriving Repr, DecidableEq

/-- Result of `ask` together with the number of context recreations it
performed. -/
structure RecoveryTrace where
  recreations : Nat
  outcome : AskOutcome
deriving Repr, DecidableEq

/-- Modelled from the spec: the recovery loop of `ask` over the
successive page-automation outcomes, with a bounded recreation budget.
A closed-condition failure with budget left recreates the context and
retries; with the budget exhausted, and for every other automation
failure, the caller receives a typed `NavigationFailed` error carrying
a message, never a raw low-level error value (spec §7). -/
def askRecovery : List AttemptResult → Nat → RecoveryTrace
  | [], _ => ⟨0, .navigationFailed "timeout"⟩
  | .answer t :: _, _ => ⟨0, .answered t⟩
  | .closedError _ :: rest, r + 1 =>
    let t := askRecovery rest r
    ⟨t.recreations + 1, t.outcome⟩
  | .closedError m :: _, 0 => ⟨0, .navigationFailed m⟩
  | .otherError m :: _, _ => ⟨0, .navigationFailed m⟩

/-- Modelled from the spec: infrastructure failures are retried exactly
once transparently (spec §7), so `ask` runs the recovery loop with a
budget of one recreation. -/
def sessionAskRecovery (attempts : List AttemptResult) : RecoveryTrace :=
  askRecovery attempts 1

/-! ## ProfileAllocator (modelled from the spec, §4.1) -/

/-- The configured profile strategy. -/
inductive Strategy where
  | auto
  | single
  | isolated
deriving Repr, DecidableEq

/-- The lease `allocate` returns (spec §3 data model). -/
structure ProfileLease where
  profilePath : String
  isolated : Bool
  strategyUsed : Strategy
deriving Repr, DecidableEq

/-- Allocation failure kinds (spec §7 taxonomy). -/
inductive AllocError where
  | profileLockConflict
deriving Repr, DecidableEq

/-- The environment `allocate` probes: the shared base profile path,
the per-instance directory the isolated behaviour would create, and
the lock-indicator probe for the base profile (spec §4.1). -/
structure AllocEnv where
  basePath : String
  freshInstanceDir : String
  baseLocked : Bool
deriving Repr, DecidableEq

/-- Modelled from the spec: `allocate(strategy, visible)` (spec §4.1).
Explicit `single` surfaces `ProfileLockConflict` when the base profile
is demonstrably locked by another live process, and otherwise leases
the base path; `isolated` leases a fresh instance directory; `auto`
attempts the base path and falls back to the isolated behaviour
transparently when the lock indicator fires — it never fails. -/
def allocate (strategy : Strategy) (visible : Bool) (env : AllocEnv) :
    Except AllocError ProfileLease :=
  match strategy with
  | .single =>
    if env.baseLocked then .error .profileLockConflict
    else .ok ⟨env.basePath, false, .single⟩
  | .isolated => .ok ⟨env.freshInstanceDir, true, .isolated⟩
  | .auto =>
    if env.baseLocked then .ok ⟨env.freshInstanceDir, true, .isolated⟩
    else .ok ⟨env.basePath, false, .auto⟩

/-! ## Specification helpers for the configuration precedence claims -/

/-- The strings `parseBoolean` accepts: "true"/"1"/"false"/"0" after
lower-casing. -/
def wellFormedBool (s : String) : Prop :=
  jsToLower s = "true" ∨ jsToLower s = "1" ∨ jsToLower s = "false" ∨ jsToLower s = "0"

instance (s : String) : Decidable (wellFormedBool s) := by
  unfold wellFormedBool; infer_instance

/-- The boolean a well-formed boolean token denotes. -/
def boolTokenValue (s : String) : Bool :=
  jsToLower s = "true" ∨ jsToLower s = "1"

/-- Three-layer precedence for one boolean field: an absent variable
keeps the merged (user-over-default) value, a well-formed one wins,
and a present but malformed one is silently ignored. -/
def EnvBoolSpec (v : Option String) (field merged : Bool) : Prop :=
  (v = none → field = merged) ∧
  (∀ s, v = some s → wellFormedBool s → field = boolTokenValue s) ∧
  (∀ s, v = some s → ¬ wellFormedBool s → field = merged)

/-- Three-layer precedence for one integer field: an absent variable
keeps the merged (user-over-default) value, a parseable one wins, and
a present but non-numeric one is silently ignored. -/
def EnvIntSpec (v : Option String) (field merged : Int) : Prop :=
  (v = none → field = merged) ∧
  (∀ s n, v = some s → parseIntJS s = some n → field = n) ∧
  (∀ s, v = some s → parseIntJS s = none → field = merged)

/-- Sample `env-paths` result for concrete evaluations. -/
def samplePaths : Paths := ⟨"/cfg", "/data"⟩

/-- Sample user config: sets `headless` and `maxSessions` only. -/
def sampleUser : UserConfig := { headless := some false, maxSessions := some (3 : Int) }

/-- Sample environment: malformed `HEADLESS`, numeric `MAX_SESSIONS`. -/
def sampleEnv : Env := { HEADLESS := some ("banana"), MAX_SESSIONS := some ("7") }

/-- A sample context key for concrete pool evaluations. -/
def demoKey : CtxKey := ⟨true, "/profile"⟩

/-- A sample pool holding one crashed context under `demoKey`. -/
def demoPool : ContextPool := [⟨demoKey, Health.closed, 0⟩]

/-- Sample manager configuration: two session slots, 900 s timeout. -/
def demoCfg : SMConfig := ⟨2, 900, false⟩

/-- Sample session A: least recently active. -/
def demoSessA : Sess := ⟨0, "u", 0, 0, 0, false, SessState.active⟩

/-- Sample session B: more recently active than A. -/
def demoSessB : Sess := ⟨1, "u", 10, 10, 0, false, SessState.active⟩

/-- Sample manager state holding sessions A and B. -/
def demoSM : SMState := ⟨[demoSessA, demoSessB], 2⟩

/-! ## Theorems -/

/-- Malformed boolean environment strings leave the default in place. -/
theorem parseBoolean_eq_default_of_malformed (s : String) (d : Bool)
    (h : ¬ wellFormedBool s) : parseBoolean (some s) d = d := by
  unfold wellFormedBool at h
  push_neg at h
  obtain ⟨h1, h2, h3, h4⟩ := h
  have hA : ¬ (jsToLower s = "true" ∨ jsToLower s = "1") := by tauto
  have hB : ¬ (jsToLower s = "false" ∨ jsToLower s = "0") := by tauto
  simp [parseBoolean, hA, hB]

/-- Well-formed boolean environment strings parse to their token value. -/
theorem parseBoolean_eq_token_of_wellFormed (s : String) (d : Bool)
    (h : wellFormedBool s) : parseBoolean (some s) d = boolTokenValue s := by
  rcases h with h | h | h | h <;> simp [parseBoolean, boolTokenValue, h]

/-- The generic boolean precedence fact about `parseBoolean`. -/
theorem envBoolSpec_parseBoolean (v : Option String) (d : Bool) :
    EnvBoolSpec v (parseBoolean v d) d := by
  refine ⟨?_, ?_, ?_⟩
  · rintro rfl; rfl
  · rintro s rfl hw; exact parseBoolean_eq_token_of_wellFormed s d hw
  · rintro s rfl hm; exact parseBoolean_eq_default_of_malformed s d hm

/-- The generic integer precedence fact about `parseInteger`. -/
theorem envIntSpec_parseInteger (v : Option String) (d : Int) :
    EnvIntSpec v (parseInteger v d) d := by
  refine ⟨?_, ?_, ?_⟩
  · rintro rfl; rfl
  · rintro s n rfl hp; simp [parseInteger, hp]
  · rintro s rfl hn; simp [parseInteger, hn]

/-- C8: when no user config file and no overriding environment
variables are present, the loaded configuration equals the hardcoded
defaults, and those defaults are: maxSessions = 10, sessionTimeout =
900 s, headless = true, browserTimeout = 30000 ms, profileStrategy =
"auto", cloneProfileOnIsolated = false, instanceProfileTtlHours = 72,
instanceProfileMaxCount = 20, and both cleanup flags = true. -/
theorem defaults_when_unconfigured (paths : Paths) :
    buildConfig paths emptyUserConfig emptyEnv = DEFAULTS paths ∧
    (buildConfig paths emptyUserConfig emptyEnv).maxSessions = 10 ∧
    (buildConfig paths emptyUserConfig emptyEnv).sessionTimeout = 900 ∧
    (buildConfig paths emptyUserConfig emptyEnv).headless = true ∧
    (buildConfig paths emptyUserConfig emptyEnv).browserTimeout = 30000 ∧
    (buildConfig paths emptyUserConfig emptyEnv).profileStrategy = "auto" ∧
    (buildConfig paths emptyUserConfig emptyEnv).cloneProfileOnIsolated = false ∧
    (buildConfig paths emptyUserConfig emptyEnv).instanceProfileTtlHours = 72 ∧
    (buildConfig paths emptyUserConfig emptyEnv).instanceProfileMaxCount = 20 ∧
    (buildConfig paths emptyUserConfig emptyEnv).cleanupInstancesOnStartup = true ∧
    (buildConfig paths emptyUserConfig emptyEnv).cleanupInstancesOnShutdown = true :=
  ⟨rfl, rfl, rfl, rfl, rfl, rfl, rfl, rfl, rfl, rfl, rfl⟩

/-- C9: every successful ask_question invocation returns exactly the
raw answer with trailing whitespace removed followed by the fixed
follow-up reminder constant; consequently the answer always ends with
the reminder text and is never the raw answer unmodified. -/
theorem ask_question_appends_reminder (raw : String) :
    handleAskQuestion (Except.ok raw) =
      ToolOutcome.success (jsTrimEnd raw ++ FOLLOW_UP_REMINDER) ∧
    FOLLOW_UP_REMINDER.data <:+ (jsTrimEnd raw ++ FOLLOW_UP_REMINDER).data ∧
    jsTrimEnd raw ++ FOLLOW_UP_REMINDER ≠ raw := by
  refine ⟨rfl, ?_, ?_⟩
  · show FOLLOW_UP_REMINDER.data <:+ (jsTrimEnd raw).data ++ FOLLOW_UP_REMINDER.data
    exact List.suffix_append _ _
  · intro h
    have hdata : (jsTrimEnd raw).data ++ FOLLOW_UP_REMINDER.data = raw.data :=
      congrArg String.data h
    have hsplit : raw.data =
        (jsTrimEnd raw).data ++ (raw.data.reverse.takeWhile jsWhitespace).reverse := by
      have htd := List.takeWhile_append_dropWhile jsWhitespace raw.data.reverse
      calc raw.data = raw.data.reverse.reverse := (List.reverse_reverse _).symm
        _ = ((raw.data.reverse.takeWhile jsWhitespace) ++
              (raw.data.reverse.dropWhile jsWhitespace)).reverse := by rw [htd]
        _ = (raw.data.reverse.dropWhile jsWhitespace).reverse ++
              (raw.data.reverse.takeWhile jsWhitespace).reverse := by
                rw [List.reverse_append]
        _ = (jsTrimEnd raw).data ++ (raw.data.reverse.takeWhile jsWhitespace).reverse := rfl
    have hff : FOLLOW_UP_REMINDER.data = (raw.data.reverse.takeWhile jsWhitespace).reverse :=
      List.append_cancel_left (hdata.trans hsplit)
    have hE : ('E' : Char) ∈ FOLLOW_UP_REMINDER.data := by decide
    rw [hff] at hE
    have hws : jsWhitespace 'E' = true :=
      List.mem_takeWhile_imp (List.mem_reverse.mp hE)
    simp [jsWhitespace] at hws

/-- C10: configuration precedence — for every boolean and integer
configuration field, environment variables override user-config-JSON
values, which override the hardcoded defaults, and a present but
malformed environment variable (unparseable boolean, non-numeric
integer) is silently ignored, leaving the lower-priority merged value
in effect.  The final merged-field equations state the
user-over-default layer. -/
theorem config_env_precedence (paths : Paths) (user : UserConfig) (env : Env) :
    EnvBoolSpec env.HEADLESS (buildConfig paths user env).headless
      (mergeConfig (DEFAULTS paths) user).headless ∧
    EnvIntSpec env.MAX_SESSIONS (buildConfig paths user env).maxSessions
      (mergeConfig (DEFAULTS paths) user).maxSessions ∧
    EnvBoolSpec env.AUTO_LOGIN_ENABLED (buildConfig paths user env).autoLoginEnabled
      (mergeConfig (DEFAULTS paths) user).autoLoginEnabled ∧
    EnvBoolSpec env.STEALTH_ENABLED (buildConfig paths user env).stealthEnabled
      (mergeConfig (DEFAULTS paths) user).stealthEnabled ∧
    EnvBoolSpec env.STEALTH_RANDOM_DELAYS (buildConfig paths user env).stealthRandomDelays
      (mergeConfig (DEFAULTS paths) user).stealthRandomDelays ∧
    EnvBoolSpec env.STEALTH_HUMAN_TYPING (buildConfig paths user env).stealthHumanTyping
      (mergeConfig (DEFAULTS paths) user).stealthHumanTyping ∧
    EnvBoolSpec env.STEALTH_MOUSE_MOVEMENTS (buildConfig paths user env).stealthMouseMovements
      (mergeConfig (DEFAULTS paths) user).stealthMouseMovements ∧
    EnvBoolSpec env.NOTEBOOK_CLONE_PROFILE (buildConfig paths user env).cloneProfileOnIsolated
      (mergeConfig (DEFAULTS paths) user).cloneProfileOnIsolated ∧
    EnvBoolSpec env.NOTEBOOK_CLEANUP_ON_STARTUP
      (buildConfig paths user env).cleanupInstancesOnStartup
      (mergeConfig (DEFAULTS paths) user).cleanupInstancesOnStartup ∧
    EnvBoolSpec env.NOTEBOOK_CLEANUP_ON_SHUTDOWN
      (buildConfig paths user env).cleanupInstancesOnShutdown
      (mergeConfig (DEFAULTS paths) user).cleanupInstancesOnShutdown ∧
    EnvIntSpec env.BROWSER_TIMEOUT (buildConfig paths user env).browserTimeout
      (mergeConfig (DEFAULTS paths) user).browserTimeout ∧
    EnvIntSpec env.SESSION_TIMEOUT (buildConfig paths user env).sessionTimeout
      (mergeConfig (DEFAULTS paths) user).sessionTimeout ∧
    EnvIntSpec env.AUTO_LOGIN_TIMEOUT_MS (buildConfig paths user env).autoLoginTimeoutMs
      (mergeConfig (DEFAULTS paths) user).autoLoginTimeoutMs ∧
    EnvIntSpec env.TYPING_WPM_MIN (buildConfig paths user env).typingWpmMin
      (mergeConfig (DEFAULTS paths) user).typingWpmMin ∧
    EnvIntSpec env.TYPING_WPM_MAX (buildConfig paths user env).typingWpmMax
      (mergeConfig (DEFAULTS paths) user).typingWpmMax ∧
    EnvIntSpec env.MIN_DELAY_MS (buildConfig paths user env).minDelayMs
      (mergeConfig (DEFAULTS paths) user).minDelayMs ∧
    EnvIntSpec env.MAX_DELAY_MS (buildConfig paths user env).maxDelayMs
      (mergeConfig (DEFAULTS paths) user).maxDelayMs ∧
    EnvIntSpec env.NOTEBOOK_INSTANCE_TTL_HOURS
      (buildConfig paths user env).instanceProfileTtlHours
      (mergeConfig (DEFAULTS paths) user).instanceProfileTtlHours ∧
    EnvIntSpec env.NOTEBOOK_INSTANCE_MAX_COUNT
      (buildConfig paths user env).instanceProfileMaxCount
      (mergeConfig (DEFAULTS paths) user).instanceProfileMaxCount ∧
    (mergeConfig (DEFAULTS paths) user).headless =
      user.headless.getD (DEFAULTS paths).headless ∧
    (mergeConfig (DEFAULTS paths) user).maxSessions =
      user.maxSessions.getD (DEFAULTS paths).maxSessions ∧
    (mergeConfig (DEFAULTS paths) user).autoLoginEnabled =
      user.autoLoginEnabled.getD (DEFAULTS paths).autoLoginEnabled ∧
    (mergeConfig (DEFAULTS paths) user).stealthEnabled =
      user.stealthEnabled.getD (DEFAULTS paths).stealthEnabled ∧
    (mergeConfig (DEFAULTS paths) user).stealthRandomDelays =
      user.stealthRandomDelays.getD (DEFAULTS paths).stealthRandomDelays ∧
    (mergeConfig (DEFAULTS paths) user).stealthHumanTyping =
      user.stealthHumanTyping.getD (DEFAULTS paths).stealthHumanTyping ∧
    (mergeConfig (DEFAULTS paths) user).stealthMouseMovements =
      user.stealthMouseMovements.getD (DEFAULTS paths).stealthMouseMovements ∧
    (mergeConfig (DEFAULTS paths) user).cloneProfileOnIsolated =
      user.cloneProfileOnIsolated.getD (DEFAULTS paths).cloneProfileOnIsolated ∧
    (mergeConfig (DEFAULTS paths) user).cleanupInstancesOnStartup =
      user.cleanupInstancesOnStartup.getD (DEFAULTS paths).cleanupInstancesOnStartup ∧
    (mergeConfig (DEFAULTS paths) user).cleanupInstancesOnShutdown =
      user.cleanupInstancesOnShutdown.getD (DEFAULTS paths).cleanupInstancesOnShutdown ∧
    (mergeConfig (DEFAULTS paths) user).browserTimeout =
      user.browserTimeout.getD (DEFAULTS paths).browserTimeout ∧
    (mergeConfig (DEFAULTS paths) user).sessionTimeout =
      user.sessionTimeout.getD (DEFAULTS paths).sessionTimeout ∧
    (mergeConfig (DEFAULTS paths) user).autoLoginTimeoutMs =
      user.autoLoginTimeoutMs.getD (DEFAULTS paths).autoLoginTimeoutMs ∧
    (mergeConfig (DEFAULTS paths) user).typingWpmMin =
      user.typingWpmMin.getD (DEFAULTS paths).typingWpmMin ∧
    (mergeConfig (DEFAULTS paths) user).typingWpmMax =
      user.typingWpmMax.getD (DEFAULTS paths).typingWpmMax ∧
    (mergeConfig (DEFAULTS paths) user).minDelayMs =
      user.minDelayMs.getD (DEFAULTS paths).minDelayMs ∧
    (mergeConfig (DEFAULTS paths) user).maxDelayMs =
      user.maxDelayMs.getD (DEFAULTS paths).maxDelayMs ∧
    (mergeConfig (DEFAULTS paths) user).instanceProfileTtlHours =
      user.instanceProfileTtlHours.getD (DEFAULTS paths).instanceProfileTtlHours ∧
    (mergeConfig (DEFAULTS paths) user).instanceProfileMaxCount =
      user.instanceProfileMaxCount.getD (DEFAULTS paths).instanceProfileMaxCount :=
  ⟨envBoolSpec_parseBoolean _ _, envIntSpec_parseInteger _ _,
    envBoolSpec_parseBoolean _ _, envBoolSpec_parseBoolean _ _,
    envBoolSpec_parseBoolean _ _, envBoolSpec_parseBoolean _ _,
    envBoolSpec_parseBoolean _ _, envBoolSpec_parseBoolean _ _,
    envBoolSpec_parseBoolean _ _, envBoolSpec_parseBoolean _ _,
    envIntSpec_parseInteger _ _, envIntSpec_parseInteger _ _,
    envIntSpec_parseInteger _ _, envIntSpec_parseInteger _ _,
    envIntSpec_parseInteger _ _, envIntSpec_parseInteger _ _,
    envIntSpec_parseInteger _ _, envIntSpec_parseInteger _ _,
    envIntSpec_parseInteger _ _,
    rfl, rfl, rfl, rfl, rfl, rfl, rfl, rfl, rfl, rfl,
    rfl, rfl, rfl, rfl, rfl, rfl, rfl, rfl, rfl⟩

/-- Witness for C10: with `HEADLESS=banana` (malformed) the user-config
value `headless=false` stays in effect, while `MAX_SESSIONS=7`
overrides the user-config value 3. -/
theorem config_env_precedence_witness :
    (buildConfig samplePaths sampleUser sampleEnv).headless = false ∧
    (buildConfig samplePaths sampleUser sampleEnv).maxSessions = 7 := by
  obtain ⟨hb, hi, _⟩ := config_env_precedence samplePaths sampleUser sampleEnv
  constructor
  · have h := hb.2.2 ("banana") rfl (by decide)
    exact h.trans rfl
  · have h := hi.2.1 ("7") (7 : Int) rfl (by decide)
    exact h

/-- A contiguous occurrence in a string survives appending on the
right. -/
theorem jsIncludes_append_right (a b needle : String)
    (h : jsIncludes a needle) : jsIncludes (a ++ b) needle := by
  unfold jsIncludes at h ⊢
  show needle.data <:+: a.data ++ b.data
  exact h.trans ((List.prefix_append a.data b.data).isInfix)

set_option maxRecDepth 40000 in
/-- C4: `Session.ask` fails with the rate-limit error exactly when the
target application signals its daily-quota condition, and the
ask_question handler surfaces this as a failed result whose error text
is the remediation guidance (switch account via re_auth, wait for the
quota reset, or upgrade) followed by the original error message. -/
theorem ask_rate_limited_surfaced :
    (∀ r : PageSignal,
      (∃ m, sessionAskResult r = Except.error (JsError.mk "RateLimitError" m)) ↔
        r = PageSignal.rateLimitSignal) ∧
    (∀ msg, handleAskQuestion (Except.error (JsError.mk "RateLimitError" msg)) =
      ToolOutcome.failure (rateLimitGuidance ++ msg)) ∧
    (∀ msg,
      jsIncludes (rateLimitGuidance ++ msg) "re_auth" ∧
      jsIncludes (rateLimitGuidance ++ msg) "Wait until tomorrow for the quota to reset" ∧
      jsIncludes (rateLimitGuidance ++ msg) "Upgrade to Google AI Pro/Ultra" ∧
      jsIncludes (rateLimitGuidance ++ msg) msg) := by
  refine ⟨?_, ?_, ?_⟩
  · intro r
    cases r with
    | answer t => simp [sessionAskResult]
    | rateLimitSignal => simp [sessionAskResult, RateLimitError]
    | navigationError m => simp [sessionAskResult]
  · intro msg
    simp [handleAskQuestion]
  · intro msg
    refine ⟨?_, ?_, ?_, ?_⟩
    · exact jsIncludes_append_right _ _ _ (by decide)
    · exact jsIncludes_append_right _ _ _ (by decide)
    · exact jsIncludes_append_right _ _ _ (by decide)
    · show msg.data <:+: rateLimitGuidance.data ++ msg.data
      exact (List.suffix_append _ _).isInfix

/-- Witness for C4: the daily-quota signal, run through `Session.ask`
and the handler, yields the composed remediation failure text. -/
theorem ask_rate_limited_surfaced_witness :
    handleAskQuestion
      (sessionAskResult PageSignal.rateLimitSignal) =
      ToolOutcome.failure (rateLimitGuidance ++
        "NotebookLM rate limit reached (50 queries/day for free accounts)") :=
  ask_rate_limited_surfaced.2.1
    ("NotebookLM rate limit reached (50 queries/day for free accounts)")

/-- Recreations performed by the recovery loop never exceed its
budget. -/
theorem askRecovery_recreations_le :
    ∀ (attempts : List AttemptResult) (budget : Nat),
      (askRecovery attempts budget).recreations ≤ budget := by
  intro attempts
  induction attempts with
  | nil => intro budget; simp [askRecovery]
  | cons a rest ih =>
    intro budget
    cases a with
    | answer t => simp [askRecovery]
    | closedError m =>
      cases budget with
      | zero => simp [askRecovery]
      | succ r => simpa [askRecovery, Nat.succ_le_succ_iff] using ih r
    | otherError m => simp [askRecovery]

/-- C3: a closed-condition failure mid-ask triggers exactly one
transparent context recreation and retry; a successful retry returns
the answer, while a retry that fails again (with a closed or any other
automation error) surfaces a typed `NavigationFailed` outcome, never a
raw low-level error; and no call ever recreates more than once. -/
theorem ask_closed_retry_once (m t m2 : String) (rest : List AttemptResult) :
    sessionAskRecovery (AttemptResult.answer t :: rest) =
      ⟨0, AskOutcome.answered t⟩ ∧
    sessionAskRecovery (AttemptResult.closedError m :: AttemptResult.answer t :: rest) =
      ⟨1, AskOutcome.answered t⟩ ∧
    sessionAskRecovery (AttemptResult.closedError m :: AttemptResult.closedError m2 :: rest) =
      ⟨1, AskOutcome.navigationFailed m2⟩ ∧
    sessionAskRecovery (AttemptResult.closedError m :: AttemptResult.otherError m2 :: rest) =
      ⟨1, AskOutcome.navigationFailed m2⟩ ∧
    (∀ attempts, (sessionAskRecovery attempts).recreations ≤ 1) :=
  ⟨rfl, rfl, rfl, rfl, fun attempts => askRecovery_recreations_le attempts 1⟩

/-- C6: `allocate` fails with `ProfileLockConflict` only under the
explicit `single` strategy with the base profile demonstrably locked;
under `auto` it never fails and falls back to the isolated profile
when the lock indicator fires. -/
theorem allocate_lock_conflict_only_single
    (strategy : Strategy) (visible : Bool) (env : AllocEnv) :
    (allocate strategy visible env = Except.error AllocError.profileLockConflict →
      strategy = Strategy.single ∧ env.baseLocked = true) ∧
    (strategy = Strategy.auto →
      ∃ lease, allocate strategy visible env = Except.ok lease ∧
        (env.baseLocked = true →
          lease.isolated = true ∧ lease.profilePath = env.freshInstanceDir)) := by
  cases strategy <;> by_cases hb : env.baseLocked = true <;>
    simp_all [allocate]

/-- Witness for C6: under `auto` with the base profile locked, the
allocation succeeds with an isolated lease. -/
theorem allocate_lock_conflict_only_single_witness :
    ∃ lease,
      allocate Strategy.auto false (AllocEnv.mk ("/base") ("/inst0") true) =
        Except.ok lease ∧
      ((AllocEnv.mk ("/base") ("/inst0") true).baseLocked = true →
        lease.isolated = true ∧
        lease.profilePath = (AllocEnv.mk ("/base") ("/inst0") true).freshInstanceDir) :=
  (allocate_lock_conflict_only_single Strategy.auto false
    (AllocEnv.mk ("/base") ("/inst0") true)).2 rfl

/-- Mapping a key- and health-preserving function across the pool
leaves the live count of every key unchanged. -/
theorem countHealthy_map_of_preserve (pool : ContextPool) (key : CtxKey)
    (f : SharedContext → SharedContext)
    (hk : ∀ c, (f c).key = c.key) (hh : ∀ c, (f c).health = c.health) :
    countHealthy (pool.map f) key = countHealthy pool key := by
  unfold countHealthy
  rw [List.countP_map]
  refine List.countP_congr ?_
  intro c _
  simp [Function.comp, hk c, hh c]

/-- Removing pool entries can only lower the live count of a key. -/
theorem poolInv_of_sublist (l l2 : ContextPool)
    (h : List.Sublist l l2) (h2 : PoolInv l2) : PoolInv l :=
  fun key => le_trans (h.countP_le _) (h2 key)

/-- The acquire transition preserves the one-live-context-per-key
invariant. -/
theorem acquireStep_preserves (pool : ContextPool) (key : CtxKey)
    (h : PoolInv pool) : PoolInv (acquireStep pool key) := by
  by_cases hh : hasHealthy pool key
  · intro k
    unfold acquireStep
    rw [if_pos hh]
    rw [countHealthy_map_of_preserve pool k _
      (fun c => by by_cases hc : c.key = key ∧ c.health = Health.healthy <;> simp [hc])
      (fun c => by by_cases hc : c.key = key ∧ c.health = Health.healthy <;> simp [hc])]
    exact h k
  · intro k
    unfold acquireStep
    rw [if_neg hh]
    unfold countHealthy
    rw [List.countP_append]
    by_cases hk : k = key
    · subst hk
      have h1 : (pool.filter (fun c => ¬ c.key = k)).countP
          (fun c => c.key = k ∧ c.health = Health.healthy) = 0 := by
        refine List.countP_eq_zero.mpr ?_
        intro c hc
        have hmem := (List.mem_filter.mp hc).2
        simp only [decide_not, Bool.not_eq_true', decide_eq_false_iff_not] at hmem
        simp [hmem]
      rw [h1]
      simp [List.countP_cons]
    · have h2 : ([(⟨key, Health.healthy, 1⟩ : SharedContext)]).countP
          (fun c => c.key = k ∧ c.health = Health.healthy) = 0 := by
        refine List.countP_eq_zero.mpr ?_
        intro c hc
        simp only [List.mem_singleton] at hc
        subst hc
        simp
        intro hck
        exact absurd hck.symm hk
      rw [h2]
      have h3 : (pool.filter (fun c => ¬ c.key = key)).countP
          (fun c => c.key = k ∧ c.health = Health.healthy) ≤
          pool.countP (fun c => c.key = k ∧ c.health = Health.healthy) :=
        (List.filter_sublist pool).countP_le _
      simpa using le_trans h3 (h k)

/-- Every pool operation preserves the one-live-context-per-key
invariant. -/
theorem poolStep_preserves (pool : ContextPool) (op : PoolOp)
    (h : PoolInv pool) : PoolInv (poolStep pool op) := by
  cases op with
  | acquire key => exact acquireStep_preserves pool key h
  | release key =>
    intro k
    show countHealthy (releaseStep pool key) k ≤ 1
    unfold releaseStep
    rw [countHealthy_map_of_preserve]
    · exact h k
    · intro c; by_cases hc : c.key = key <;> simp [hc]
    · intro c; by_cases hc : c.key = key <;> simp [hc]
  | healthFlip key =>
    intro k
    show countHealthy (healthFlipStep pool key) k ≤ 1
    unfold healthFlipStep countHealthy
    rw [List.countP_map]
    refine le_trans (List.countP_mono_left ?_) (h k)
    intro c _ hc
    by_cases hck : c.key = key
    · simp [Function.comp, hck] at hc
    · simpa [Function.comp, hck] using hc
  | rebind oldV newV p =>
    exact acquireStep_preserves _ _
      (poolInv_of_sublist _ _ (List.filter_sublist pool) h)
  | teardown key =>
    exact poolInv_of_sublist _ _ (List.filter_sublist pool) h

/-- C1: at every instant, at most one live (healthy) shared context
exists per `(visible, profilePath)` key — every acquire, release,
health-flip and recreation operation preserves the invariant, and
every pool reachable from process start satisfies it. -/
theorem shared_context_unique_live_per_key :
    (∀ pool op, PoolInv pool → PoolInv (poolStep pool op)) ∧
    (∀ ops key, countHealthy (runPool ops) key ≤ 1) := by
  refine ⟨poolStep_preserves, ?_⟩
  have hrun : ∀ (ops : List PoolOp) (start : ContextPool),
      PoolInv start → PoolInv (ops.foldl poolStep start) := by
    intro ops
    induction ops with
    | nil => intro start h; exact h
    | cons op rest ih => intro start h; exact ih _ (poolStep_preserves start op h)
  intro ops key
  exact hrun ops [] (fun k => by simp [countHealthy]) key

/-- Witness for C1: acquiring over a pool holding a crashed context
under the same key yields at most one live context for that key. -/
theorem shared_context_unique_live_per_key_witness :
    countHealthy (poolStep demoPool (PoolOp.acquire demoKey)) demoKey ≤ 1 :=
  (shared_context_unique_live_per_key.1 demoPool (PoolOp.acquire demoKey)
    (fun key => le_trans (List.countP_le_length _) (by simp [demoPool]))) demoKey

/-- One manager step keeps the registry within the configured
maximum. -/
theorem smStep_length_le (cfg : SMConfig) (st : SMState) (op : SMOp)
    (hmax : 1 ≤ cfg.maxSessions)
    (hst : st.registry.length ≤ cfg.maxSessions) :
    (smStep cfg st op).registry.length ≤ cfg.maxSessions := by
  cases op with
  | getOrCreate idOpt url vis now =>
    have hreg : (sweepExpired cfg now st.registry).length ≤ cfg.maxSessions :=
      le_trans (List.length_filter_le _ _) hst
    show (getOrCreateSession cfg st idOpt url vis now).2.registry.length ≤ cfg.maxSessions
    simp only [getOrCreateSession]
    cases hmatch : idOpt.bind (findSession (sweepExpired cfg now st.registry)) with
    | some s =>
      dsimp only
      split <;> simpa [List.length_map] using hreg
    | none =>
      dsimp only
      simp only [List.length_append, List.length_singleton]
      by_cases hc : cfg.maxSessions ≤ (sweepExpired cfg now st.registry).length
      · rw [if_pos hc]
        cases harg : (sweepExpired cfg now st.registry).argmin Sess.lastActivityAt with
        | none =>
          have hnil : sweepExpired cfg now st.registry = [] :=
            List.argmin_eq_none.mp harg
          simp [hnil, hmax]
        | some victim =>
          have hvmem : victim ∈ sweepExpired cfg now st.registry :=
            List.argmin_mem (Option.mem_def.mpr harg)
          have hlen := List.length_erase_of_mem hvmem
          have hpos : 0 < (sweepExpired cfg now st.registry).length :=
            List.length_pos_of_mem hvmem
          simp only [hlen]
          omega
      · rw [if_neg hc]
        have := Nat.lt_of_not_le hc
        omega
  | ask i now => simpa [smStep, List.length_map] using hst
  | reset i => simpa [smStep, List.length_map] using hst
  | close i =>
    show (st.registry.filter _).length ≤ cfg.maxSessions
    exact le_trans (List.length_filter_le _ _) hst
  | closeAll => simpa [smStep] using Nat.zero_le _

/-- C2: the number of Active sessions in the registry never exceeds
the configured maximum over any operation sequence; and whenever a new
session is created while the (swept) registry is at the maximum, the
session with the smallest `lastActivityAt` is evicted, and creation
itself succeeds with a fresh zero-message Active session. -/
theorem session_registry_bounded_lru_eviction (cfg : SMConfig)
    (hmax : 1 ≤ cfg.maxSessions) :
    (∀ ops, (runSM cfg ops).registry.length ≤ cfg.maxSessions) ∧
    (∀ (st : SMState) (idOpt : Option Nat) (url : String)
        (vis : Option Bool) (now : Nat),
      idOpt.bind (findSession (sweepExpired cfg now st.registry)) = none →
      cfg.maxSessions ≤ (sweepExpired cfg now st.registry).length →
      ∃ victim,
        (sweepExpired cfg now st.registry).argmin Sess.lastActivityAt = some victim ∧
        victim ∈ sweepExpired cfg now st.registry ∧
        (∀ s ∈ sweepExpired cfg now st.registry,
          victim.lastActivityAt ≤ s.lastActivityAt) ∧
        (getOrCreateSession cfg st idOpt url vis now).2.registry =
          ((sweepExpired cfg now st.registry).erase victim) ++
            [(getOrCreateSession cfg st idOpt url vis now).1] ∧
        (getOrCreateSession cfg st idOpt url vis now).1 =
          ⟨st.nextId, url, now, now, 0, vis.getD cfg.defaultVisible,
            SessState.active⟩) := by
  constructor
  · have hrun : ∀ (ops : List SMOp) (start : SMState),
        start.registry.length ≤ cfg.maxSessions →
        ((ops.foldl (smStep cfg) start).registry.length ≤ cfg.maxSessions) := by
      intro ops
      induction ops with
      | nil => intro start h; exact h
      | cons op rest ih =>
        intro start h
        exact ih _ (smStep_length_le cfg start op hmax h)
    intro ops
    exact hrun ops ⟨[], 0⟩ (by simp)
  · intro st idOpt url vis now hnone hfull
    have hne : sweepExpired cfg now st.registry ≠ [] := by
      intro h0
      rw [h0] at hfull
      simp at hfull
      omega
    obtain ⟨victim, harg⟩ :
        ∃ v, (sweepExpired cfg now st.registry).argmin Sess.lastActivityAt = some v := by
      cases h : (sweepExpired cfg now st.registry).argmin Sess.lastActivityAt with
      | none => exact absurd (List.argmin_eq_none.mp h) hne
      | some v => exact ⟨v, rfl⟩
    refine ⟨victim, harg, List.argmin_mem (Option.mem_def.mpr harg), ?_, ?_, ?_⟩
    · intro s hs
      exact List.le_of_mem_argmin hs (Option.mem_def.mpr harg)
    · simp only [getOrCreateSession, hnone]
      rw [if_pos hfull, harg]
    · simp only [getOrCreateSession, hnone]

/-- Witness for C2: with two slots filled by sessions A (older) and B,
creating a third evicts A exactly, and the new session starts Active
with zero messages. -/
theorem session_registry_bounded_lru_eviction_witness :
    (getOrCreateSession demoCfg demoSM none ("u") none 20).2.registry =
      ((sweepExpired demoCfg 20 demoSM.registry).erase demoSessA) ++
        [(getOrCreateSession demoCfg demoSM none ("u") none 20).1] ∧
    (getOrCreateSession demoCfg demoSM none ("u") none 20).1 =
      ⟨2, "u", 20, 20, 0, false, SessState.active⟩ := by
  obtain ⟨victim, harg, hmem, hmin, hregeq, hfresh⟩ :=
    (session_registry_bounded_lru_eviction demoCfg (by decide)).2
      demoSM none ("u") none 20 rfl (by decide)
  have hva : victim = demoSessA := by
    have : (sweepExpired demoCfg 20 demoSM.registry).argmin Sess.lastActivityAt =
        some demoSessA := by decide
    rw [this] at harg
    exact (Option.some_inj.mp harg).symm
  subst hva
  exact ⟨hregeq, hfresh⟩

/-- The found session of a successful lookup is a member of the
searched registry slice. -/
theorem findSession_mem {reg : List Sess} {i : Nat} {s : Sess}
    (h : findSession reg i = some s) : s ∈ reg :=
  List.mem_of_find?_eq_some h

/-- The found session of a successful lookup carries the looked-up
id. -/
theorem findSession_sid {reg : List Sess} {i : Nat} {s : Sess}
    (h : findSession reg i = some s) : s.sid = i := by
  unfold findSession at h
  have := List.find?_some h
  simpa using this

/-- One manager step keeps every registry entry Active. -/
theorem smStep_all_active (cfg : SMConfig) (st : SMState) (op : SMOp)
    (h : ∀ s ∈ st.registry, s.state = SessState.active) :
    ∀ s ∈ (smStep cfg st op).registry, s.state = SessState.active := by
  have hsweep : ∀ now s, s ∈ sweepExpired cfg now st.registry →
      s.state = SessState.active :=
    fun now s hs => h s (List.mem_of_mem_filter hs)
  cases op with
  | getOrCreate idOpt url vis now =>
    show ∀ s ∈ (getOrCreateSession cfg st idOpt url vis now).2.registry, _
    simp only [getOrCreateSession]
    cases hmatch : idOpt.bind (findSession (sweepExpired cfg now st.registry)) with
    | some s0 =>
      have hs0 : s0 ∈ sweepExpired cfg now st.registry := by
        cases idOpt with
        | none => simp at hmatch
        | some i =>
          simp only [Option.some_bind] at hmatch
          exact findSession_mem hmatch
      dsimp only
      split
      · intro s hs
        exact hsweep now s hs
      · intro s hs
        obtain ⟨t, ht, rfl⟩ := List.mem_map.mp hs
        by_cases hts : t.sid = s0.sid
        · rw [if_pos hts]
          exact hsweep now s0 hs0
        · rw [if_neg hts]
          exact hsweep now t ht
    | none =>
      dsimp only
      intro s hs
      rcases List.mem_append.mp hs with hl | hr
      · have hsub : s ∈ sweepExpired cfg now st.registry := by
          revert hl
          split
          · split
            · intro hl
              exact (List.erase_sublist _ _).subset hl
            · intro hl; exact hl
          · intro hl; exact hl
        exact hsweep now s hsub
      · have : s = (⟨st.nextId, url, now, now, 0, vis.getD cfg.defaultVisible,
            SessState.active⟩ : Sess) := by
          simpa using hr
        rw [this]
  | ask i now =>
    intro s hs
    obtain ⟨t, ht, rfl⟩ := List.mem_map.mp hs
    by_cases hts : t.sid = i
    · rw [if_pos hts]
      exact h t ht
    · rw [if_neg hts]
      exact h t ht
  | reset i =>
    intro s hs
    obtain ⟨t, ht, rfl⟩ := List.mem_map.mp hs
    by_cases hts : t.sid = i
    · rw [if_pos hts]
      exact h t ht
    · rw [if_neg hts]
      exact h t ht
  | close i =>
    intro s hs
    exact h s (List.mem_of_mem_filter hs)
  | closeAll =>
    intro s hs
    simp [smStep] at hs

/-- Every session stored in a reachable registry is Active. -/
theorem runSM_all_active (cfg : SMConfig) (ops : List SMOp) :
    ∀ s ∈ (runSM cfg ops).registry, s.state = SessState.active := by
  have hrun : ∀ (ops : List SMOp) (start : SMState),
      (∀ s ∈ start.registry, s.state = SessState.active) →
      ∀ s ∈ (ops.foldl (smStep cfg) start).registry, s.state = SessState.active := by
    intro ops
    induction ops with
    | nil => intro start hstart; exact hstart
    | cons op rest ih =>
      intro start hstart
      exact ih _ (smStep_all_active cfg start op hstart)
  exact hrun ops ⟨[], 0⟩ (by simp)

/-- C7: session lookup over any reachable registry never returns a
session that is Closed or whose idle time exceeds the configured
timeout; a lookup that finds only an expired entry yields NotFound,
and the in-`getOrCreateSession` resolution slice (the swept registry)
contains no expired session either. -/
theorem session_lookup_never_stale (cfg : SMConfig) :
    (∀ ops i now s, getSession cfg (runSM cfg ops) i now = some s →
      s.state = SessState.active ∧ now - s.lastActivityAt ≤ cfg.timeout) ∧
    (∀ (st : SMState) i now s0, findSession st.registry i = some s0 →
      cfg.timeout < now - s0.lastActivityAt →
      getSession cfg st i now = none) ∧
    (∀ (reg : List Sess) now s, s ∈ sweepExpired cfg now reg →
      now - s.lastActivityAt ≤ cfg.timeout) := by
  refine ⟨?_, ?_, ?_⟩
  · intro ops i now s hget
    unfold getSession at hget
    cases hfind : findSession (runSM cfg ops).registry i with
    | none => rw [hfind] at hget; simp at hget
    | some s0 =>
      rw [hfind] at hget
      simp only [Option.some_bind] at hget
      by_cases hexp : cfg.timeout < now - s0.lastActivityAt
      · rw [if_pos hexp] at hget
        exact absurd hget (by simp)
      · rw [if_neg hexp] at hget
        have hss : s0 = s := by simpa using hget
        subst hss
        exact ⟨runSM_all_active cfg ops s0 (findSession_mem hfind),
          le_of_not_lt hexp⟩
  · intro st i now s0 hfind hexp
    unfold getSession
    rw [hfind]
    simp [hexp]
  · intro reg now s hs
    have := (List.mem_filter.mp hs).2
    simpa using this

/-- Witness for C7: looking up session A long after its idle timeout
elapsed yields NotFound. -/
theorem session_lookup_never_stale_witness :
    getSession demoCfg demoSM 0 2000 = none :=
  (session_lookup_never_stale demoCfg).2.1 demoSM 0 2000 demoSessA (by decide)
    (by decide)

/-- C5: an ask with `visibilityOverride = true` on a session bound to a
non-visible context returns a session with the same id whose message
count is reset to 0 and whose binding is visible; the rebound session
is stored back in the registry, every subsequent ask on it leases its
page under a context key with visibility enabled, and asking never
changes the binding. -/
theorem visibility_override_rebinds_session (cfg : SMConfig) (st : SMState)
    (i : Nat) (url : String) (now : Nat) (s : Sess)
    (hfind : findSession (sweepExpired cfg now st.registry) i = some s)
    (hvis : s.boundVisible = false) :
    (getOrCreateSession cfg st (some i) url (some true) now).1.sid = s.sid ∧
    (getOrCreateSession cfg st (some i) url (some true) now).1.sid = i ∧
    (getOrCreateSession cfg st (some i) url (some true) now).1.messageCount = 0 ∧
    (getOrCreateSession cfg st (some i) url (some true) now).1.boundVisible = true ∧
    (getOrCreateSession cfg st (some i) url (some true) now).1 ∈
      (getOrCreateSession cfg st (some i) url (some true) now).2.registry ∧
    (∀ profilePath,
      askContextKey (getOrCreateSession cfg st (some i) url (some true) now).1
        profilePath = ⟨true, profilePath⟩) ∧
    (∀ (t : Sess) (now2 : Nat),
      (sessionAfterAsk t now2).boundVisible = t.boundVisible) := by
  have hbind : (some i).bind (findSession (sweepExpired cfg now st.registry)) =
      some s := by
    simpa using hfind
  have hsid : s.sid = i := findSession_sid hfind
  have hcond : ¬ (Option.getD (some true) s.boundVisible = s.boundVisible) := by
    simp [hvis]
  have hmem : s ∈ sweepExpired cfg now st.registry := findSession_mem hfind
  simp only [getOrCreateSession, hbind]
  rw [if_neg hcond]
  refine ⟨rfl, hsid, rfl, by simp, ?_, ?_, fun t now2 => rfl⟩
  · exact List.mem_map.mpr ⟨s, hmem, by simp⟩
  · intro profilePath
    simp [askContextKey]

/-- Witness for C5: overriding visibility on session A (bound
non-visible) returns a rebound session with zero messages bound
visible. -/
theorem visibility_override_rebinds_session_witness :
    (getOrCreateSession demoCfg demoSM (some 0) ("u") (some true) 20).1.messageCount = 0 ∧
    (getOrCreateSession demoCfg demoSM (some 0) ("u") (some true) 20).1.boundVisible = true := by
  have h := visibility_override_rebinds_session demoCfg demoSM 0 ("u") 20 demoSessA
    (by decide) (by decide)
  exact ⟨h.2.2.1, h.2.2.2.1⟩

end NLM
